import Mathlib

/-!
Verification of the county_data API (Flask entrypoint `api/index.py`).

The development shallowly embeds the request-handling core:

* `PyVal` / `pyGet` model the Python-level JSON payload and `dict.get`
  (which returns `None` both for an absent key and for a key bound to
  JSON `null`);
* `ZIP_PATTERN_match` models `re.match(r"^\d{5}$", s)` under Python
  `str`-pattern semantics: `\d` matches any Unicode decimal digit
  (category Nd), and `$` matches at the end of the string or just
  before a single final newline;
* `validate_payload` models the validator, `ALLOWED_MEASURES` the
  fixed measure vocabulary;
* `get_connection` / `lookup_county_data` model the store access and
  the SQL query (DISTINCT projection of `county_health_rankings`
  columns joined to `zip_county`, ordered by
  `(data_release_year, year_span)` ascending, with SQL NULL-aware
  equality);
* `county_data` models the POST route, with werkzeug HTTPExceptions
  rendered to `{"error": msg}` JSON responses by the error handler.
-/

namespace CountyAPI

/-- Python values that a parsed JSON payload can bind a key to.
`PyVal.none` is Python `None`, i.e. JSON `null`. -/
inductive PyVal where
  | none
  | str (s : String)
  | int (n : Int)
  | bool (b : Bool)
  deriving DecidableEq

/-- A parsed JSON object as the handler sees it: an association list of
keys to Python values (keys are unique in a Python dict; lookups take the
first binding). -/
abbrev PyDict := List (String × PyVal)

/-- Model of Python `dict.get(k)`: the value bound to `k`, or `None`
when the key is absent. A key bound to JSON `null` and an absent key are
indistinguishable through this accessor, exactly as in Python. -/
def pyGet (d : PyDict) (k : String) : PyVal :=
  match d with
  | [] => PyVal.none
  | (k', v) :: rest => if k' = k then v else pyGet rest k

/-- Codepoint ranges of Unicode general category Nd (decimal digits),
the class Python's `\d` matches in a `str` pattern. -/
def ndRanges : List (Nat × Nat) :=
  [(0x30, 0x39), (0x660, 0x669), (0x6F0, 0x6F9), (0x7C0, 0x7C9),
   (0x966, 0x96F), (0x9E6, 0x9EF), (0xA66, 0xA6F), (0xAE6, 0xAEF),
   (0xB66, 0xB6F), (0xBE6, 0xBEF), (0xC66, 0xC6F), (0xCE6, 0xCEF),
   (0xD66, 0xD6F), (0xDE6, 0xDEF), (0xE50, 0xE59), (0xED0, 0xED9),
   (0xF20, 0xF29), (0x1040, 0x1049), (0x1090, 0x1099), (0x17E0, 0x17E9),
   (0x1810, 0x1819), (0x1946, 0x194F), (0x19D0, 0x19D9), (0x1A80, 0x1A89),
   (0x1A90, 0x1A99), (0x1B50, 0x1B59), (0x1BB0, 0x1BB9), (0x1C40, 0x1C49),
   (0x1C50, 0x1C59), (0xA620, 0xA629), (0xA8D0, 0xA8D9), (0xA900, 0xA909),
   (0xA9D0, 0xA9D9), (0xA9F0, 0xA9F9), (0xAA50, 0xAA59), (0xABF0, 0xABF9),
   (0xFF10, 0xFF19), (0x104A0, 0x104A9), (0x10D30, 0x10D39),
   (0x11066, 0x1106F), (0x110F0, 0x110F9), (0x11136, 0x1113F),
   (0x111D0, 0x111D9), (0x112F0, 0x112F9), (0x11450, 0x11459),
   (0x114D0, 0x114D9), (0x11650, 0x11659), (0x116C0, 0x116C9),
   (0x11730, 0x11739), (0x118E0, 0x118E9), (0x11950, 0x11959),
   (0x11C50, 0x11C59), (0x11D50, 0x11D59), (0x11DA0, 0x11DA9),
   (0x16A60, 0x16A69), (0x16AC0, 0x16AC9), (0x16B50, 0x16B59),
   (0x1D7CE, 0x1D7FF), (0x1E140, 0x1E149), (0x1E2F0, 0x1E2F9),
   (0x1E950, 0x1E959), (0x1FBF0, 0x1FBF9)]

/-- Whether a character is a digit for Python's `\d` in a `str` pattern:
membership in Unicode category Nd. -/
def isPyDigit (c : Char) : Bool :=
  ndRanges.any (fun r => decide (r.1 ≤ c.toNat) && decide (c.toNat ≤ r.2))

/-- Model of `ZIP_PATTERN.match(s)` for `ZIP_PATTERN = re.compile(r"^\d{5}$")`
under Python semantics: `^` anchors at the start, `\d{5}` consumes exactly
five characters that must all be `\d` digits, and then `$` matches when
nothing remains or when exactly one final newline remains (Python's `$`,
without `re.MULTILINE`, also matches just before a newline that ends the
string). -/
def ZIP_PATTERN_match (s : String) : Bool :=
  let digits := s.data.take 5
  let rest := s.data.drop 5
  decide (digits.length = 5) && digits.all isPyDigit &&
    (decide (rest = []) || decide (rest = ['\x0a']))

/-- The fixed vocabulary of measure names (`ALLOWED_MEASURES` in the source,
a Python set; modelled as a duplicate-free list with exact string
membership). -/
def ALLOWED_MEASURES : List String :=
  ["Violent crime rate",
   "Unemployment",
   "Children in poverty",
   "Diabetic screening",
   "Mammography screening",
   "Preventable hospital stays",
   "Uninsured",
   "Sexually transmitted infections",
   "Physical inactivity",
   "Adult obesity",
   "Premature Death",
   "Daily fine particulate matter"]

/-- The closed set of werkzeug HTTPException failures the handler raises.
`storeUnavailable` carries the database path because `get_connection`
interpolates `DB_PATH` into the exception description. -/
inductive ApiError where
  | missingField
  | invalidZip
  | invalidType
  | unknownMeasure
  | noMatch
  | storeUnavailable (path : String)
  deriving DecidableEq

/-- HTTP status code the error handler attaches to each raised exception
(BadRequest = 400, NotFound = 404). -/
def errorStatus : ApiError → Nat
  | ApiError.missingField => 400
  | ApiError.invalidZip => 400
  | ApiError.invalidType => 400
  | ApiError.unknownMeasure => 400
  | ApiError.noMatch => 404
  | ApiError.storeUnavailable _ => 404

/-- Description string of each raised exception, surfaced verbatim as the
`error` field of the JSON error body by `handle_http_exception`. -/
def errorMessage : ApiError → String
  | ApiError.missingField => "Both 'zip' and 'measure_name' are required"
  | ApiError.invalidZip => "zip must be a 5-digit string"
  | ApiError.invalidType => "measure_name must be a string"
  | ApiError.unknownMeasure => "measure_name must be one of the documented measures"
  | ApiError.noMatch => "No matching records found"
  | ApiError.storeUnavailable path => "Database not found at " ++ path

/-- The normalized pair `validate_payload` returns on success. -/
structure ValidatedRequest where
  zip : String
  measure_name : String
  deriving DecidableEq

/-- Model of `validate_payload`: missing-field check on the two
`dict.get` results, then the zip type-and-pattern check, then the
measure type check, then exact membership in `ALLOWED_MEASURES`. -/
def validate_payload (payload : PyDict) : Except ApiError ValidatedRequest :=
  let zip_code := pyGet payload "zip"
  let measure_name := pyGet payload "measure_name"
  if zip_code = PyVal.none ∨ measure_name = PyVal.none then
    Except.error ApiError.missingField
  else
    match zip_code with
    | PyVal.str z =>
      if ZIP_PATTERN_match z then
        match measure_name with
        | PyVal.str m =>
          if m ∈ ALLOWED_MEASURES then Except.ok ⟨z, m⟩
          else Except.error ApiError.unknownMeasure
        | _ => Except.error ApiError.invalidType
      else Except.error ApiError.invalidZip
    | _ => Except.error ApiError.invalidZip

/-- One row of `county_health_rankings`, the 14 projected columns of the
query. Column values come from SQLite, so each is `Option String`
(`Option.none` is SQL NULL; the loader stores every field as TEXT). -/
structure HealthRecord where
  state : Option String
  county : Option String
  state_code : Option String
  county_code : Option String
  year_span : Option String
  measure_name : Option String
  measure_id : Option String
  numerator : Option String
  denominator : Option String
  raw_value : Option String
  confidence_interval_lower_bound : Option String
  confidence_interval_upper_bound : Option String
  data_release_year : Option String
  fipscode : Option String
  deriving DecidableEq

/-- One row of `zip_county`, restricted to the columns the query reads. -/
structure ZipCountyRow where
  zip : Option String
  county_code : Option String
  county : Option String
  state_abbreviation : Option String
  deriving DecidableEq

/-- Contents of `data.db`: the two tables the query touches, as bags of
rows (storage order unspecified). -/
structure Store where
  county_health_rankings : List HealthRecord
  zip_county : List ZipCountyRow

/-- The database file addressed by `DB_PATH`: its filesystem path, and its
contents when the file exists (`Option.none` models a missing file). -/
structure DbFile where
  path : String
  store : Option Store

/-- Model of `get_connection`: raises werkzeug `NotFound` with the path in
the description when `DB_PATH` does not exist, otherwise opens the store. -/
def get_connection (db : DbFile) : Except ApiError Store :=
  match db.store with
  | Option.none => Except.error (ApiError.storeUnavailable db.path)
  | Option.some s => Except.ok s

/-- SQL `=` between two TEXT values as a WHERE/ON truth value: TRUE only
when both operands are non-NULL and equal (a NULL comparison is not TRUE,
so the row is filtered out). -/
def sqlEq (a b : Option String) : Bool :=
  match a, b with
  | Option.some x, Option.some y => x == y
  | _, _ => false

/-- The parenthesized join alternative of the query's ON clause:
`(chr.fipscode IS NOT NULL AND chr.fipscode = zc.county_code)
 OR (chr.county = zc.county AND chr.state = zc.state_abbreviation)`. -/
def joinAlternative (r : HealthRecord) (m : ZipCountyRow) : Bool :=
  (r.fipscode.isSome && sqlEq r.fipscode m.county_code) ||
    (sqlEq r.county m.county && sqlEq r.state m.state_abbreviation)

/-- Whether a `county_health_rankings` row survives the query for the
given parameters: the WHERE clause `chr.measure_name = :measure` and the
INNER JOIN requirement that some `zip_county` row satisfies the ON clause
`zc.zip = :zip AND joinAlternative`. -/
def rowSelected (s : Store) (zip_code measure_name : String) (r : HealthRecord) : Bool :=
  sqlEq r.measure_name (Option.some measure_name) &&
    s.zip_county.any (fun m => sqlEq m.zip (Option.some zip_code) && joinAlternative r m)

/-- SQLite ascending ordering of one TEXT column: NULL sorts first, and
non-NULL TEXT values compare lexicographically. -/
def orderValue (o : Option String) : WithBot String :=
  match o with
  | Option.none => ⊥
  | Option.some s => (s : WithBot String)

/-- The ORDER BY key of the query: `(data_release_year, year_span)`
compared lexicographically, first component first. -/
def rowKey (r : HealthRecord) : (WithBot String) ×ₗ (WithBot String) :=
  toLex (orderValue r.data_release_year, orderValue r.year_span)

/-- Ordering relation `ORDER BY chr.data_release_year ASC, chr.year_span ASC`
induces on result rows. -/
def rowLE (a b : HealthRecord) : Prop :=
  rowKey a ≤ rowKey b

instance : DecidableRel rowLE :=
  fun a b => inferInstanceAs (Decidable (rowKey a ≤ rowKey b))

instance : IsTotal HealthRecord rowLE :=
  ⟨fun a b => le_total (rowKey a) (rowKey b)⟩

instance : IsTrans HealthRecord rowLE :=
  ⟨fun _ _ _ h₁ h₂ => le_trans h₁ h₂⟩

/-- Model of `lookup_county_data`: open the store (failing when the file
is missing), evaluate the SELECT DISTINCT ... INNER JOIN ... WHERE query,
and return the distinct surviving rows ordered by `rowKey` ascending. -/
def lookup_county_data (db : DbFile) (zip_code measure_name : String) :
    Except ApiError (List HealthRecord) := do
  let s ← get_connection db
  pure (List.insertionSort rowLE
    ((s.county_health_rankings.filter (rowSelected s zip_code measure_name)).dedup))

/-- Body of an HTTP response: either the JSON array of records of a 200,
or the JSON object with a single `error` string field every failure
produces. -/
inductive RespBody where
  | records (rs : List HealthRecord)
  | err (msg : String)
  deriving DecidableEq

/-- An HTTP response: status code and JSON body. -/
structure Resp where
  status : Nat
  body : RespBody
  deriving DecidableEq

/-- Model of the POST `/county_data` route on a parsed JSON-object body:
the teapot sentinel check, then validation, then the lookup, with raised
exceptions rendered by the error handlers as `{"error": description}`
bodies carrying the exception's status code. -/
def county_data (db : DbFile) (payload : PyDict) : Resp :=
  if pyGet payload "coffee" = PyVal.str "teapot" then
    ⟨418, RespBody.err "Request rejected: I'm a teapot."⟩
  else
    match validate_payload payload with
    | Except.error e => ⟨errorStatus e, RespBody.err (errorMessage e)⟩
    | Except.ok v =>
      match lookup_county_data db v.zip v.measure_name with
      | Except.error e => ⟨errorStatus e, RespBody.err (errorMessage e)⟩
      | Except.ok [] => ⟨errorStatus ApiError.noMatch, RespBody.err (errorMessage ApiError.noMatch)⟩
      | Except.ok rs => ⟨200, RespBody.records rs⟩

/-! Concrete fixtures used to instantiate the theorems below: one
`county_health_rankings` row for Middlesex County, MA, one `zip_county`
row for ZIP 02138 that matches it both by FIPS code and by
(county, state) name, and databases built from them. -/

/-- Fixture health record (Adult obesity, Middlesex County MA, release 2012). -/
def sampleRecord : HealthRecord :=
  { state := Option.some "MA"
    county := Option.some "Middlesex County"
    state_code := Option.some "25"
    county_code := Option.some "017"
    year_span := Option.some "2005-2011"
    measure_name := Option.some "Adult obesity"
    measure_id := Option.some "11"
    numerator := Option.some "60771.02"
    denominator := Option.some "263078.1"
    raw_value := Option.some "0.231"
    confidence_interval_lower_bound := Option.some "0.224"
    confidence_interval_upper_bound := Option.some "0.238"
    data_release_year := Option.some "2012"
    fipscode := Option.some "25017" }

/-- Fixture zip-to-county row for ZIP 02138; it matches `sampleRecord`
both through `county_code = fipscode` and through the (county, state)
name pair. -/
def sampleMapping : ZipCountyRow :=
  { zip := Option.some "02138"
    county_code := Option.some "25017"
    county := Option.some "Middlesex County"
    state_abbreviation := Option.some "MA" }

/-- Fixture store holding the one record and the one mapping. -/
def sampleStore : Store :=
  ⟨[sampleRecord], [sampleMapping]⟩

/-- Fixture database file that exists and holds `sampleStore`. -/
def sampleDb : DbFile :=
  ⟨"/app/api/data.db", Option.some sampleStore⟩

/-- Fixture database file whose path does not exist. -/
def missingDb : DbFile :=
  ⟨"/app/api/data.db", Option.none⟩

/-- Fixture database file that exists but holds no rows at all. -/
def emptyDb : DbFile :=
  ⟨"/app/api/data.db", Option.some ⟨[], []⟩⟩

/-- Fixture database whose health table stores the same row twice, joined
to a mapping that matches it both by code and by name: the raw join
produces the row four times, the endpoint must return it once. -/
def dupDb : DbFile :=
  ⟨"/app/api/data.db", Option.some ⟨[sampleRecord, sampleRecord], [sampleMapping]⟩⟩

/-- Fixture payload that passes validation and matches `sampleStore`. -/
def goodPayload : PyDict :=
  [("zip", PyVal.str "02138"), ("measure_name", PyVal.str "Adult obesity")]

/-- Fixture payload carrying the teapot sentinel next to an invalid zip. -/
def teapotPayload : PyDict :=
  [("coffee", PyVal.str "teapot"), ("zip", PyVal.str "21")]

/-! Helper lemmas shared by the claim theorems. -/

/-- Unfolding lemma: when the database file exists, the lookup returns the
sorted deduplicated filter of the health table. -/
theorem lookup_eq_of_store (db : DbFile) (s : Store) (h : db.store = Option.some s)
    (zip_code measure_name : String) :
    lookup_county_data db zip_code measure_name =
      Except.ok (List.insertionSort rowLE
        ((s.county_health_rankings.filter (rowSelected s zip_code measure_name)).dedup)) := by
  unfold lookup_county_data get_connection
  rw [h]
  rfl

/-- Characterization of the query predicate in terms of the spec's join
description. -/
theorem rowSelected_iff (s : Store) (zip_code measure_name : String) (r : HealthRecord) :
    rowSelected s zip_code measure_name r = true ↔
      ((∃ mp, mp ∈ s.zip_county ∧ sqlEq mp.zip (Option.some zip_code) = true ∧
          ((r.fipscode ≠ Option.none ∧ sqlEq r.fipscode mp.county_code = true) ∨
            (sqlEq r.county mp.county = true ∧ sqlEq r.state mp.state_abbreviation = true))) ∧
        sqlEq r.measure_name (Option.some measure_name) = true) := by
  simp only [rowSelected, joinAlternative, Bool.and_eq_true, Bool.or_eq_true,
    List.any_eq_true, Option.isSome_iff_ne_none]
  constructor
  · rintro ⟨hmeas, mp, hmem, hzip, hjoin⟩
    exact ⟨⟨mp, hmem, hzip, hjoin⟩, hmeas⟩
  · rintro ⟨⟨mp, hmem, hzip, hjoin⟩, hmeas⟩
    exact ⟨hmeas, mp, hmem, hzip, hjoin⟩

/-! Claim theorems. -/

/-- C1: for every (zip, measure) pair, `lookup_county_data` returns exactly
the health-record rows for which some `zip_county` row has `zip` equal to
the input zip and the record matches that mapping either by county code
(the record's `fipscode`, when it is non-NULL, against the mapping's
`county_code`) or by the exact (county name, state abbreviation) pair, with
the record's `measure_name` equal to the input measure; and the returned
sequence is ordered ascending by `(data_release_year, year_span)`
(the relation `rowLE`). -/
theorem lookup_join_membership_and_order (db : DbFile) (s : Store)
    (hdb : db.store = Option.some s) (zip_code measure_name : String)
    (rs : List HealthRecord)
    (h : lookup_county_data db zip_code measure_name = Except.ok rs) :
    (∀ r : HealthRecord, r ∈ rs ↔
      (r ∈ s.county_health_rankings ∧
        (∃ mp, mp ∈ s.zip_county ∧ sqlEq mp.zip (Option.some zip_code) = true ∧
          ((r.fipscode ≠ Option.none ∧ sqlEq r.fipscode mp.county_code = true) ∨
            (sqlEq r.county mp.county = true ∧ sqlEq r.state mp.state_abbreviation = true))) ∧
        sqlEq r.measure_name (Option.some measure_name) = true))
    ∧ List.Sorted rowLE rs := by
  rw [lookup_eq_of_store db s hdb zip_code measure_name] at h
  injection h with h
  subst h
  constructor
  · intro r
    rw [List.Perm.mem_iff (List.perm_insertionSort _ _), List.mem_dedup, List.mem_filter,
      rowSelected_iff]
  · exact List.sorted_insertionSort rowLE _

/-- C1 witness: the characterization instantiated at the fixture database,
ZIP 02138 and measure "Adult obesity", where the lookup evaluates to the
single fixture row. -/
theorem lookup_join_membership_and_order_witness :
    (∀ r : HealthRecord, r ∈ [sampleRecord] ↔
      (r ∈ sampleStore.county_health_rankings ∧
        (∃ mp, mp ∈ sampleStore.zip_county ∧ sqlEq mp.zip (Option.some "02138") = true ∧
          ((r.fipscode ≠ Option.none ∧ sqlEq r.fipscode mp.county_code = true) ∨
            (sqlEq r.county mp.county = true ∧ sqlEq r.state mp.state_abbreviation = true))) ∧
        sqlEq r.measure_name (Option.some "Adult obesity") = true))
    ∧ List.Sorted rowLE [sampleRecord] :=
  lookup_join_membership_and_order sampleDb sampleStore rfl "02138" "Adult obesity"
    [sampleRecord] rfl

/-- C6: every lookup result is duplicate-free under full-column equality
(`DecidableEq HealthRecord` compares all 14 columns), so a record matched
both by county code and by name appears exactly once. -/
theorem lookup_result_nodup (db : DbFile) (zip_code measure_name : String)
    (rs : List HealthRecord)
    (h : lookup_county_data db zip_code measure_name = Except.ok rs) :
    rs.Nodup := by
  rcases hs : db.store with _ | s
  · rw [show lookup_county_data db zip_code measure_name =
        Except.error (ApiError.storeUnavailable db.path) by
      unfold lookup_county_data get_connection
      rw [hs]
      rfl] at h
    exact absurd h (by simp)
  · rw [lookup_eq_of_store db s hs zip_code measure_name] at h
    injection h with h
    subst h
    exact (List.perm_insertionSort rowLE _).nodup_iff.mpr (List.nodup_dedup _)

/-- C6 witness: against `dupDb`, whose health table stores the fixture row
twice and whose mapping matches it both by code and by name, the lookup
returns the row exactly once. -/
theorem lookup_result_nodup_witness :
    (lookup_county_data dupDb "02138" "Adult obesity" = Except.ok [sampleRecord])
    ∧ List.Nodup [sampleRecord] :=
  ⟨rfl, lookup_result_nodup dupDb "02138" "Adult obesity" [sampleRecord] rfl⟩

/-- C5: when the database file does not exist, every lookup fails with the
store-unavailable error before any query runs; it is never the no-match
outcome and never an empty (or any) successful row list, and the
store-unavailable failure is distinguishable from no-match both as an
error kind and by its surfaced message. -/
theorem missing_store_fails_distinguishably (db : DbFile) (h : db.store = Option.none)
    (zip_code measure_name : String) :
    lookup_county_data db zip_code measure_name =
        Except.error (ApiError.storeUnavailable db.path)
    ∧ (∀ rs : List HealthRecord,
        lookup_county_data db zip_code measure_name ≠ Except.ok rs)
    ∧ ApiError.storeUnavailable db.path ≠ ApiError.noMatch
    ∧ errorMessage (ApiError.storeUnavailable db.path) ≠ errorMessage ApiError.noMatch := by
  have he : lookup_county_data db zip_code measure_name =
      Except.error (ApiError.storeUnavailable db.path) := by
    unfold lookup_county_data get_connection
    rw [h]
    rfl
  refine ⟨he, ?_, by simp, ?_⟩
  · intro rs hok
    rw [he] at hok
    exact Except.noConfusion hok
  · intro heq
    have hd : (errorMessage (ApiError.storeUnavailable db.path)).data.head? =
        Option.some 'D' := by
      show ("Database not found at " ++ db.path).data.head? = Option.some 'D'
      rw [String.data_append]
      rfl
    rw [heq] at hd
    exact absurd hd (by decide)

/-- C5 witness: the missing-file fixture database instantiates every
conjunct at ZIP 02138 and measure "Adult obesity". -/
theorem missing_store_fails_distinguishably_witness :
    lookup_county_data missingDb "02138" "Adult obesity" =
        Except.error (ApiError.storeUnavailable "/app/api/data.db")
    ∧ (∀ rs : List HealthRecord,
        lookup_county_data missingDb "02138" "Adult obesity" ≠ Except.ok rs)
    ∧ ApiError.storeUnavailable "/app/api/data.db" ≠ ApiError.noMatch
    ∧ errorMessage (ApiError.storeUnavailable "/app/api/data.db") ≠
        errorMessage ApiError.noMatch :=
  missing_store_fails_distinguishably missingDb rfl "02138" "Adult obesity"

/-- C9: any JSON-object payload binding "coffee" to "teapot" is answered
with HTTP 418 and the fixed teapot message, regardless of the database
and of every other field, before any validation of zip or measure_name. -/
theorem teapot_sentinel_short_circuits (db : DbFile) (payload : PyDict)
    (h : pyGet payload "coffee" = PyVal.str "teapot") :
    county_data db payload = ⟨418, RespBody.err "Request rejected: I'm a teapot."⟩ := by
  unfold county_data
  rw [if_pos h]

/-- C9 witness: a payload carrying the sentinel next to a zip that would
fail validation still gets the 418 response, even against a missing
database. -/
theorem teapot_sentinel_short_circuits_witness :
    county_data missingDb teapotPayload =
      ⟨418, RespBody.err "Request rejected: I'm a teapot."⟩ :=
  teapot_sentinel_short_circuits missingDb teapotPayload rfl

/-- C10: whenever `dict.get` yields `None` for "zip" or for
"measure_name" — which happens exactly when the key is absent or is bound
to JSON `null` — validation fails with the missing-field error (HTTP 400,
the both-fields-required message), an error kind distinct from
`invalidZip` and from `invalidType`. -/
theorem null_field_means_missing (payload : PyDict)
    (h : pyGet payload "zip" = PyVal.none ∨ pyGet payload "measure_name" = PyVal.none) :
    validate_payload payload = Except.error ApiError.missingField
    ∧ errorStatus ApiError.missingField = 400
    ∧ errorMessage ApiError.missingField = "Both 'zip' and 'measure_name' are required"
    ∧ ApiError.missingField ≠ ApiError.invalidZip
    ∧ ApiError.missingField ≠ ApiError.invalidType := by
  refine ⟨?_, rfl, rfl, by simp, by simp⟩
  unfold validate_payload
  rw [if_pos h]

/-- C10 witness: a payload whose "zip" key is present but bound to JSON
`null` (with a perfectly valid measure) is rejected as missing-field. -/
theorem null_field_means_missing_witness :
    validate_payload [("zip", PyVal.none), ("measure_name", PyVal.str "Adult obesity")] =
        Except.error ApiError.missingField
    ∧ errorStatus ApiError.missingField = 400
    ∧ errorMessage ApiError.missingField = "Both 'zip' and 'measure_name' are required"
    ∧ ApiError.missingField ≠ ApiError.invalidZip
    ∧ ApiError.missingField ≠ ApiError.invalidType :=
  null_field_means_missing
    [("zip", PyVal.none), ("measure_name", PyVal.str "Adult obesity")]
    (Or.inl rfl)

/-- C2 counterexample: the five ASCII digits "12345" followed by a
trailing newline are not a string of exactly 5 ASCII digits, yet
validation accepts that zip (Python's `$` matches before a final newline),
instead of failing with the InvalidZip error as the claim requires. -/
theorem zip_claim_counterexample :
    validate_payload
        [("zip", PyVal.str "12345\x0a"), ("measure_name", PyVal.str "Adult obesity")] =
      Except.ok ⟨"12345\x0a", "Adult obesity"⟩
    ∧ validate_payload
        [("zip", PyVal.str "12345\x0a"), ("measure_name", PyVal.str "Adult obesity")] ≠
      Except.error ApiError.invalidZip
    ∧ ¬(("12345\x0a").data.length = 5 ∧ ("12345\x0a").data.all Char.isDigit = true) := by
  have h1 : validate_payload
      [("zip", PyVal.str "12345\x0a"), ("measure_name", PyVal.str "Adult obesity")] =
      Except.ok ⟨"12345\x0a", "Adult obesity"⟩ := rfl
  refine ⟨h1, ?_, by decide⟩
  intro h2
  rw [h1] at h2
  exact Except.noConfusion h2

/-- C2 amended: with a valid measure fixed, validation accepts a zip
string exactly when `ZIP_PATTERN_match` does, i.e. exactly when the string
splits into five characters of Unicode category Nd (Python `\d`, a strict
superset of the ASCII digits) followed by either nothing or one final
newline; every other string fails with the InvalidZip error. -/
theorem zip_validation_amended (s : String) :
    (validate_payload [("zip", PyVal.str s), ("measure_name", PyVal.str "Adult obesity")] =
      if ZIP_PATTERN_match s then Except.ok ⟨s, "Adult obesity"⟩
      else Except.error ApiError.invalidZip)
    ∧ (ZIP_PATTERN_match s = true ↔
        ∃ ds rest, s.data = ds ++ rest ∧ ds.length = 5 ∧
          (∀ c ∈ ds, isPyDigit c = true) ∧ (rest = [] ∨ rest = ['\x0a'])) := by
  constructor
  · by_cases h : ZIP_PATTERN_match s
    · simp [validate_payload, pyGet, h, ALLOWED_MEASURES]
    · simp [validate_payload, pyGet, h]
  · constructor
    · intro h
      unfold ZIP_PATTERN_match at h
      simp only [Bool.and_eq_true, Bool.or_eq_true, decide_eq_true_eq,
        List.all_eq_true] at h
      obtain ⟨⟨hlen, hdig⟩, hrest⟩ := h
      exact ⟨s.data.take 5, s.data.drop 5, (List.take_append_drop 5 s.data).symm,
        hlen, hdig, hrest⟩
    · rintro ⟨ds, rest, hsplit, hlen, hdig, hrest⟩
      have ht : s.data.take 5 = ds := by
        rw [hsplit, ← hlen, List.take_left]
      have hd : s.data.drop 5 = rest := by
        rw [hsplit, ← hlen, List.drop_left]
      unfold ZIP_PATTERN_match
      simp only [Bool.and_eq_true, Bool.or_eq_true, decide_eq_true_eq, List.all_eq_true,
        ht, hd]
      exact ⟨⟨hlen, hdig⟩, hrest⟩

/-- C3: with a valid zip fixed, validation succeeds exactly when the
measure string is a member of `ALLOWED_MEASURES` under exact, case-sensitive
string equality, and fails with the UnknownMeasure error otherwise; the
vocabulary has exactly 12 distinct entries, and a case variant of a valid
name ("adult obesity") is not a member while "Adult obesity" is. -/
theorem measure_vocabulary_exact (s : String) :
    (validate_payload [("zip", PyVal.str "02138"), ("measure_name", PyVal.str s)] =
      if s ∈ ALLOWED_MEASURES then Except.ok ⟨"02138", s⟩
      else Except.error ApiError.unknownMeasure)
    ∧ ALLOWED_MEASURES.length = 12
    ∧ ALLOWED_MEASURES.Nodup
    ∧ ("Adult obesity" : String) ∈ ALLOWED_MEASURES
    ∧ ("adult obesity" : String) ∉ ALLOWED_MEASURES := by
  refine ⟨?_, by decide, by decide, by decide, by decide⟩
  have hz : ZIP_PATTERN_match "02138" = true := by decide
  by_cases h : s ∈ ALLOWED_MEASURES
  · simp [validate_payload, pyGet, hz, h]
  · simp [validate_payload, pyGet, hz, h]

/-- C4 counterexample: a validated payload whose query runs against an
existing but non-matching store gets HTTP 404, but the body message is
"No matching records found", not the claimed exact body message
"no matching records". -/
theorem empty_result_message_counterexample :
    county_data emptyDb goodPayload = ⟨404, RespBody.err "No matching records found"⟩
    ∧ ("No matching records found" : String) ≠ "no matching records" :=
  ⟨rfl, by decide⟩

/-- C4 amended: for every payload without the teapot sentinel that passes
validation and whose lookup succeeds, zero rows yield HTTP 404 with body
message "No matching records found" (not "no matching records"), and one
or more rows yield HTTP 200 with the JSON array of those records. -/
theorem county_data_result_split (db : DbFile) (payload : PyDict) (v : ValidatedRequest)
    (ht : pyGet payload "coffee" ≠ PyVal.str "teapot")
    (hv : validate_payload payload = Except.ok v)
    (rs : List HealthRecord)
    (hl : lookup_county_data db v.zip v.measure_name = Except.ok rs) :
    county_data db payload =
      if rs = [] then ⟨404, RespBody.err "No matching records found"⟩
      else ⟨200, RespBody.records rs⟩ := by
  cases rs with
  | nil => simp [county_data, ht, hv, hl, errorStatus, errorMessage]
  | cons a l => simp [county_data, ht, hv, hl]

/-- C4 amended witness: against the fixture database the good payload
returns HTTP 200 with the single matching record. -/
theorem county_data_result_split_witness :
    county_data sampleDb goodPayload =
      if ([sampleRecord] : List HealthRecord) = []
      then ⟨404, RespBody.err "No matching records found"⟩
      else ⟨200, RespBody.records [sampleRecord]⟩ :=
  county_data_result_split sampleDb goodPayload ⟨"02138", "Adult obesity"⟩
    (fun h => PyVal.noConfusion h) rfl [sampleRecord] rfl

/-- C7 counterexample: with the database file missing, the surfaced error
response embeds the internal store path `/app/api/data.db` in its message,
contradicting the claim that no surfaced error message contains an
internal file path. -/
theorem error_leak_counterexample :
    county_data missingDb goodPayload =
      ⟨404, RespBody.err "Database not found at /app/api/data.db"⟩
    ∧ ("/app/api/data.db").data <:+: ("Database not found at /app/api/data.db").data :=
  ⟨rfl, by decide⟩

/-- C7 amended: every validation failure and the no-match outcome carry
the fixed human-readable messages of the error table (400 or 404), but
the missing-store error is the exception: its message is
"Database not found at " followed by the store path, so the store path
always occurs inside the surfaced message. -/
theorem error_messages_shape (p : String) :
    errorMessage ApiError.missingField = "Both 'zip' and 'measure_name' are required"
    ∧ errorMessage ApiError.invalidZip = "zip must be a 5-digit string"
    ∧ errorMessage ApiError.invalidType = "measure_name must be a string"
    ∧ errorMessage ApiError.unknownMeasure = "measure_name must be one of the documented measures"
    ∧ errorMessage ApiError.noMatch = "No matching records found"
    ∧ errorMessage (ApiError.storeUnavailable p) = "Database not found at " ++ p
    ∧ p.data <:+: (errorMessage (ApiError.storeUnavailable p)).data := by
  refine ⟨rfl, rfl, rfl, rfl, rfl, rfl, ?_⟩
  show p.data <:+: ("Database not found at " ++ p).data
  rw [String.data_append]
  exact (List.suffix_append _ _).isInfix

/-- C8 counterexample: a payload with a valid zip and an integer
measure_name is rejected with the InvalidType error, whose surfaced
message is "measure_name must be a string" — not the claimed
"measure_name must be one of the documented measures" shared with
UnknownMeasure. -/
theorem invalid_type_message_counterexample :
    validate_payload [("zip", PyVal.str "02138"), ("measure_name", PyVal.int 3)] =
        Except.error ApiError.invalidType
    ∧ county_data sampleDb [("zip", PyVal.str "02138"), ("measure_name", PyVal.int 3)] =
        ⟨400, RespBody.err "measure_name must be a string"⟩
    ∧ ("measure_name must be a string" : String) ≠
        "measure_name must be one of the documented measures" :=
  ⟨rfl, rfl, by decide⟩

/-- C8 amended: for every payload with a pattern-matching zip string and a
measure_name value that is present (non-null) but not a string, validation
fails with the InvalidType error and the response is HTTP 400 with the
message "measure_name must be a string", which differs from the
UnknownMeasure message. -/
theorem invalid_type_yields_type_message (z : String) (v : PyVal)
    (hz : ZIP_PATTERN_match z = true)
    (hstr : ∀ t : String, v ≠ PyVal.str t)
    (hnone : v ≠ PyVal.none) :
    validate_payload [("zip", PyVal.str z), ("measure_name", v)] =
        Except.error ApiError.invalidType
    ∧ errorStatus ApiError.invalidType = 400
    ∧ errorMessage ApiError.invalidType = "measure_name must be a string"
    ∧ errorMessage ApiError.invalidType ≠ errorMessage ApiError.unknownMeasure := by
  refine ⟨?_, rfl, rfl, by decide⟩
  cases v with
  | none => exact absurd rfl hnone
  | str t => exact absurd rfl (hstr t)
  | int n => simp [validate_payload, pyGet, hz]
  | bool b => simp [validate_payload, pyGet, hz]

/-- C8 amended witness: the instantiation at zip "02138" and the integer
measure value 3. -/
theorem invalid_type_yields_type_message_witness :
    validate_payload [("zip", PyVal.str "02138"), ("measure_name", PyVal.int 3)] =
        Except.error ApiError.invalidType
    ∧ errorStatus ApiError.invalidType = 400
    ∧ errorMessage ApiError.invalidType = "measure_name must be a string"
    ∧ errorMessage ApiError.invalidType ≠ errorMessage ApiError.unknownMeasure :=
  invalid_type_yields_type_message "02138" (PyVal.int 3) (by decide)
    (fun _ h => PyVal.noConfusion h) (fun h => PyVal.noConfusion h)

end CountyAPI
